import Mathlib

/-!
DisplayPort TX timer example (xdptx_timer_example.c).

Shallow embedding of the three functions of the example, over an explicit
model of the external driver and timer routines they call, and the properties
of these functions.

* C integers are natural numbers; a value of type u32 is reduced modulo 2^32
  where it is produced.
* The routines defined outside the file (platform hook, XDptx driver, example
  common code, XTmrCtr driver) are a parameter: an environment that maps a
  call and the state of the outside world to a returned value and a new state.
* Every call a function makes to the environment is appended to a trace.
* The polling loop of the delay routine may run forever; it is modelled with a
  bound on the number of loop iterations, and returns none when the bound
  is exhausted.
-/

namespace Dptx

/-! ## Data model -/

/-- Number of values of the C type u32. -/
def U32 : Nat := 4294967296

/-- Modelled from the spec: the header xstatus.h is not part of the sources; the
specification speaks of a single binary success/failure code. Success code,
with the value of xstatus.h (0L). -/
def XST_SUCCESS : Nat := 0

/-- Modelled from the spec: the header xstatus.h is not part of the sources; the
specification speaks of a single binary success/failure code. Failure code,
with the value of xstatus.h (1L). -/
def XST_FAILURE : Nat := 1

/-- The calls the file makes to routines defined elsewhere, with their
arguments. Pointers are addresses. -/
inductive Call where
  | Dptx_PlatformInit
  | XDptx_SetUserTimerHandler (InstancePtr CallbackFunc CallbackRef : Nat)
  | Dptx_SetupExample (InstancePtr DeviceId : Nat)
  | XDptx_EnableTrainAdaptive (InstancePtr Enable : Nat)
  | XDptx_SetHasRedriverInPath (InstancePtr Flag : Nat)
  | Dptx_Run (InstancePtr : Nat)
  | XTmrCtr_Start (InstancePtr TmrCtrNumber : Nat)
  | XTmrCtr_GetValue (InstancePtr TmrCtrNumber : Nat)
  | XTmrCtr_Stop (InstancePtr TmrCtrNumber : Nat)
  deriving DecidableEq, Repr

/-- The outside world: what a call returns and how it changes the state of the
world. The returned value of a routine of type void is ignored. -/
abbrev Env (W : Type) := Call → W → Nat × W

/-- State of an execution: the outside world and the calls made so far. -/
structure Machine (W : Type) where
  world : W
  trace : List Call
  deriving DecidableEq, Repr

/-- One call to an external routine: the environment answers, the call is
recorded. -/
def extcall {W : Type} (E : Env W) (c : Call) (m : Machine W) : Nat × Machine W :=
  let r := E c m.world
  (r.1, { world := r.2, trace := m.trace ++ [c] })

/-- Constants and addresses the file takes from headers that are not part of
the sources (xparameters.h, xdptx_example_common.h) and from the linker. -/
structure Platform where
  DPTX_DEVICE_ID : Nat
  TRAIN_ADAPTIVE : Nat
  TRAIN_HAS_REDRIVER : Nat
  DptxInstance : Nat
  TimerCounterInst : Nat
  Dptx_CustomWaitUs : Nat
  deriving DecidableEq, Repr

/-- The field of XDptx_Config the file reads. -/
structure XDptx_Config where
  SAxiClkHz : Nat
  deriving DecidableEq, Repr

/-- The fields of the XDptx instance the file reads. -/
structure XDptx where
  Config : XDptx_Config
  UserTimerPtr : Nat
  deriving DecidableEq, Repr

/-! ## Dptx_TimerExample and main -/

/-- Source lines 131-165. -/
def Dptx_TimerExample {W : Type} (K : Platform) (E : Env W)
    (InstancePtr DeviceId TimerCounterPtr UserSleepFunc : Nat) (m : Machine W) :
    Nat × Machine W :=
  let m1 := (extcall E Call.Dptx_PlatformInit m).2
  let m2 := (extcall E
    (Call.XDptx_SetUserTimerHandler InstancePtr UserSleepFunc TimerCounterPtr) m1).2
  let r3 := extcall E (Call.Dptx_SetupExample InstancePtr DeviceId) m2
  let Status := r3.1 % U32
  if Status ≠ XST_SUCCESS then
    (XST_FAILURE, r3.2)
  else
    let m4 := (extcall E (Call.XDptx_EnableTrainAdaptive InstancePtr K.TRAIN_ADAPTIVE) r3.2).2
    let m5 := (extcall E
      (Call.XDptx_SetHasRedriverInPath InstancePtr K.TRAIN_HAS_REDRIVER) m4).2
    let r6 := extcall E (Call.Dptx_Run InstancePtr) m5
    let Status := r6.1 % U32
    if Status ≠ XST_SUCCESS then
      (XST_FAILURE, r6.2)
    else
      (XST_SUCCESS, r6.2)

/-- Conversion of a u32 value to the C type int (two's complement). -/
def u32ToInt (v : Nat) : Int :=
  if v < 2147483648 then (v : Int) else (v : Int) - 4294967296

/-- Source lines 97-109. The device id is converted to the u16 parameter. -/
def main {W : Type} (K : Platform) (E : Env W) (m : Machine W) : Int × Machine W :=
  let r := Dptx_TimerExample K E K.DptxInstance (K.DPTX_DEVICE_ID % 65536)
    K.TimerCounterInst K.Dptx_CustomWaitUs m
  let Status : Int := u32ToInt r.1
  if Status ≠ (XST_SUCCESS : Int) then
    ((XST_FAILURE : Int), r.2)
  else
    ((XST_SUCCESS : Int), r.2)

/-- World in which Dptx_TimerExample calls Dptx_SetupExample: after the
platform hook and the registration of the timer handler. -/
def worldBeforeSetup {W : Type} (E : Env W)
    (InstancePtr TimerCounterPtr UserSleepFunc : Nat) (w : W) : W :=
  (E (Call.XDptx_SetUserTimerHandler InstancePtr UserSleepFunc TimerCounterPtr)
    (E Call.Dptx_PlatformInit w).2).2

/-- Status the environment returns to the call of Dptx_SetupExample made by
Dptx_TimerExample. -/
def setupStatus {W : Type} (E : Env W)
    (InstancePtr DeviceId TimerCounterPtr UserSleepFunc : Nat) (w : W) : Nat :=
  (E (Call.Dptx_SetupExample InstancePtr DeviceId)
    (worldBeforeSetup E InstancePtr TimerCounterPtr UserSleepFunc w)).1 % U32

/-- World in which Dptx_TimerExample calls Dptx_Run: after setup and the two
training options. -/
def worldBeforeRun {W : Type} (K : Platform) (E : Env W)
    (InstancePtr DeviceId TimerCounterPtr UserSleepFunc : Nat) (w : W) : W :=
  (E (Call.XDptx_SetHasRedriverInPath InstancePtr K.TRAIN_HAS_REDRIVER)
    (E (Call.XDptx_EnableTrainAdaptive InstancePtr K.TRAIN_ADAPTIVE)
      (E (Call.Dptx_SetupExample InstancePtr DeviceId)
        (worldBeforeSetup E InstancePtr TimerCounterPtr UserSleepFunc w)).2).2).2

/-- Status the environment returns to the call of Dptx_Run that follows a
successful setup. -/
def runStatus {W : Type} (K : Platform) (E : Env W)
    (InstancePtr DeviceId TimerCounterPtr UserSleepFunc : Nat) (w : W) : Nat :=
  (E (Call.Dptx_Run InstancePtr)
    (worldBeforeRun K E InstancePtr DeviceId TimerCounterPtr UserSleepFunc w)).1 % U32

/-- Calls of Dptx_SetupExample. -/
def Call.isSetup : Call → Bool
  | Call.Dptx_SetupExample _ _ => true
  | _ => false

/-- Calls of Dptx_Run. -/
def Call.isRun : Call → Bool
  | Call.Dptx_Run _ => true
  | _ => false

/-- Calls that belong to link training: the two training options and
Dptx_Run. -/
def Call.isTraining : Call → Bool
  | Call.XDptx_EnableTrainAdaptive _ _ => true
  | Call.XDptx_SetHasRedriverInPath _ _ => true
  | Call.Dptx_Run _ => true
  | _ => false

/-- Environment without state in which Dptx_SetupExample returns s1, Dptx_Run
returns s2 and every other routine returns 0. -/
def statusEnv (s1 s2 : Nat) : Env Unit := fun c w =>
  match c with
  | Call.Dptx_SetupExample _ _ => (s1, w)
  | Call.Dptx_Run _ => (s2, w)
  | _ => (0, w)

/-- A platform for the examples: device 0, both training options set, and
three distinct addresses. -/
def demoPlatform : Platform :=
  { DPTX_DEVICE_ID := 0, TRAIN_ADAPTIVE := 1, TRAIN_HAS_REDRIVER := 1,
    DptxInstance := 4096, TimerCounterInst := 8192, Dptx_CustomWaitUs := 12288 }

/-- The empty execution state without outside world. -/
def initMachine : Machine Unit := { world := (), trace := [] }

/-! ## Dptx_CustomWaitUs -/

/-- Threshold of the polling loop, source lines 196-197: u32 division, then
u32 multiplication. -/
def threshold (Inst : XDptx) (MicroSeconds : Nat) : Nat :=
  (MicroSeconds * (Inst.Config.SAxiClkHz / 1000000)) % U32

/-- What Dptx_CustomWaitUs leaves behind when it returns: the last value of
the local TimerVal, the XDptx instance, and the execution state. -/
structure WaitResult (W : Type) where
  TimerVal : Nat
  Inst : XDptx
  machine : Machine W
  deriving DecidableEq, Repr

/-- The do-while loop of source lines 193-197, at most fuel iterations. The
result is the last value read and the state after the last read. -/
def Dptx_CustomWaitUs_loop {W : Type} (E : Env W) (Inst : XDptx) (MicroSeconds : Nat) :
    Nat → Machine W → Option (Nat × Machine W)
  | 0, _ => none
  | fuel + 1, m =>
    let r := extcall E (Call.XTmrCtr_GetValue Inst.UserTimerPtr 0) m
    let TimerVal := r.1 % U32
    if TimerVal < (MicroSeconds * (Inst.Config.SAxiClkHz / 1000000)) % U32 then
      Dptx_CustomWaitUs_loop E Inst MicroSeconds fuel r.2
    else
      some (TimerVal, r.2)

/-- Source lines 185-200. The result is none when the loop has not ended
after fuel iterations. -/
def Dptx_CustomWaitUs {W : Type} (E : Env W) (fuel : Nat) (Inst : XDptx)
    (MicroSeconds : Nat) (m : Machine W) : Option (WaitResult W) :=
  let m1 := (extcall E (Call.XTmrCtr_Start Inst.UserTimerPtr 0) m).2
  match Dptx_CustomWaitUs_loop E Inst MicroSeconds fuel m1 with
  | none => none
  | some (TimerVal, m2) =>
    some { TimerVal := TimerVal, Inst := Inst,
           machine := (extcall E (Call.XTmrCtr_Stop Inst.UserTimerPtr 0) m2).2 }

/-- World after XTmrCtr_Start, in which the first read takes place. -/
def worldAfterStart {W : Type} (E : Env W) (Inst : XDptx) (w : W) : W :=
  (E (Call.XTmrCtr_Start Inst.UserTimerPtr 0) w).2

/-- World after k successive calls of XTmrCtr_GetValue on counter 0 of the
timer p, from the world w. -/
def worldAfterReads {W : Type} (E : Env W) (p : Nat) : Nat → W → W
  | 0, w => w
  | k + 1, w => worldAfterReads E p k (E (Call.XTmrCtr_GetValue p 0) w).2

/-- Value the read number k (from 0) returns, as a u32, when the reads start
in the world w. -/
def readValue {W : Type} (E : Env W) (p : Nat) (w : W) (k : Nat) : Nat :=
  (E (Call.XTmrCtr_GetValue p 0) (worldAfterReads E p k w)).1 % U32

/-- The sequence of timer values Dptx_CustomWaitUs would read, one after the
other, were it never to stop reading. -/
def timerSeq {W : Type} (E : Env W) (Inst : XDptx) (w : W) (k : Nat) : Nat :=
  readValue E Inst.UserTimerPtr (worldAfterStart E Inst w) k

/-- The calls Dptx_CustomWaitUs makes when its loop ends at read number n
(from 0): one start, n + 1 reads, one stop, all on counter 0 of the timer. -/
def waitCalls (Inst : XDptx) (n : Nat) : List Call :=
  Call.XTmrCtr_Start Inst.UserTimerPtr 0 ::
    (List.replicate (n + 1) (Call.XTmrCtr_GetValue Inst.UserTimerPtr 0) ++
      [Call.XTmrCtr_Stop Inst.UserTimerPtr 0])

/-- A free-running counter: the world is the counter value, XTmrCtr_Start
resets it to 0, every read returns the value and lets one tick pass. -/
def tickEnv : Env Nat := fun c w =>
  match c with
  | Call.XTmrCtr_Start _ _ => (0, 0)
  | Call.XTmrCtr_GetValue _ _ => (w, w + 1)
  | _ => (0, w)

/-- A timer that holds the value v at every read. -/
def constEnv (v : Nat) : Env Unit := fun c w =>
  match c with
  | Call.XTmrCtr_GetValue _ _ => (v, w)
  | _ => (0, w)

/-- An XDptx instance with the given clock and its timer at address 8192. -/
def demoInst (hz : Nat) : XDptx :=
  { Config := { SAxiClkHz := hz }, UserTimerPtr := 8192 }

/-- An execution state for the examples: the counter holds 77 before it is
started, no call has been made. -/
def demoMachine : Machine Nat := { world := 77, trace := [] }

/-! ## Helper lemmas -/

/-- The whole result of Dptx_TimerExample, by the two returned statuses. -/
theorem Dptx_TimerExample_eq {W : Type} (K : Platform) (E : Env W)
    (InstancePtr DeviceId TimerCounterPtr UserSleepFunc : Nat) (m : Machine W) :
    Dptx_TimerExample K E InstancePtr DeviceId TimerCounterPtr UserSleepFunc m =
      if setupStatus E InstancePtr DeviceId TimerCounterPtr UserSleepFunc m.world
          ≠ XST_SUCCESS then
        (XST_FAILURE,
          { world := (E (Call.Dptx_SetupExample InstancePtr DeviceId)
              (worldBeforeSetup E InstancePtr TimerCounterPtr UserSleepFunc m.world)).2,
            trace := m.trace ++
              [Call.Dptx_PlatformInit,
               Call.XDptx_SetUserTimerHandler InstancePtr UserSleepFunc TimerCounterPtr,
               Call.Dptx_SetupExample InstancePtr DeviceId] })
      else
        (if runStatus K E InstancePtr DeviceId TimerCounterPtr UserSleepFunc m.world
            ≠ XST_SUCCESS then XST_FAILURE else XST_SUCCESS,
          { world := (E (Call.Dptx_Run InstancePtr)
              (worldBeforeRun K E InstancePtr DeviceId TimerCounterPtr UserSleepFunc
                m.world)).2,
            trace := m.trace ++
              [Call.Dptx_PlatformInit,
               Call.XDptx_SetUserTimerHandler InstancePtr UserSleepFunc TimerCounterPtr,
               Call.Dptx_SetupExample InstancePtr DeviceId,
               Call.XDptx_EnableTrainAdaptive InstancePtr K.TRAIN_ADAPTIVE,
               Call.XDptx_SetHasRedriverInPath InstancePtr K.TRAIN_HAS_REDRIVER,
               Call.Dptx_Run InstancePtr] }) := by
  unfold Dptx_TimerExample
  simp only [extcall, setupStatus, runStatus, worldBeforeSetup, worldBeforeRun]
  split
  · simp
  · split <;> simp

/-- The status of Dptx_TimerExample is one of the two codes. -/
theorem Dptx_TimerExample_binary {W : Type} (K : Platform) (E : Env W)
    (InstancePtr DeviceId TimerCounterPtr UserSleepFunc : Nat) (m : Machine W) :
    (Dptx_TimerExample K E InstancePtr DeviceId TimerCounterPtr UserSleepFunc m).1
        = XST_SUCCESS ∨
    (Dptx_TimerExample K E InstancePtr DeviceId TimerCounterPtr UserSleepFunc m).1
        = XST_FAILURE := by
  rw [Dptx_TimerExample_eq]
  split
  · exact Or.inr rfl
  · split
    · exact Or.inr rfl
    · exact Or.inl rfl

/-- Reads that start one read later see the sequence shifted by one. -/
theorem readValue_succ {W : Type} (E : Env W) (p : Nat) (w : W) (k : Nat) :
    readValue E p w (k + 1) = readValue E p (E (Call.XTmrCtr_GetValue p 0) w).2 k := rfl

/-- The loop does not end within fuel iterations when the first fuel reads
are all below the threshold. -/
theorem loop_none_of_below {W : Type} (E : Env W) (Inst : XDptx) (MicroSeconds : Nat) :
    ∀ (fuel : Nat) (m : Machine W),
      (∀ j, j < fuel →
        readValue E Inst.UserTimerPtr m.world j < threshold Inst MicroSeconds) →
      Dptx_CustomWaitUs_loop E Inst MicroSeconds fuel m = none := by
  intro fuel
  induction fuel with
  | zero => intro m _; rfl
  | succ f ih =>
    intro m h
    have h0 : (E (Call.XTmrCtr_GetValue Inst.UserTimerPtr 0) m.world).1 % U32
        < (MicroSeconds * (Inst.Config.SAxiClkHz / 1000000)) % U32 :=
      h 0 (Nat.succ_pos f)
    simp only [Dptx_CustomWaitUs_loop, extcall, h0, if_true]
    apply ih
    intro j hj
    exact h (j + 1) (Nat.succ_lt_succ hj)

/-- The loop ends at the first read that reaches the threshold, when the bound
on the iterations allows this read. -/
theorem loop_some_of_first {W : Type} (E : Env W) (Inst : XDptx) (MicroSeconds : Nat) :
    ∀ (n fuel : Nat) (m : Machine W),
      (∀ j, j < n →
        readValue E Inst.UserTimerPtr m.world j < threshold Inst MicroSeconds) →
      threshold Inst MicroSeconds ≤ readValue E Inst.UserTimerPtr m.world n →
      n < fuel →
      Dptx_CustomWaitUs_loop E Inst MicroSeconds fuel m =
        some (readValue E Inst.UserTimerPtr m.world n,
          { world := worldAfterReads E Inst.UserTimerPtr (n + 1) m.world,
            trace := m.trace ++
              List.replicate (n + 1) (Call.XTmrCtr_GetValue Inst.UserTimerPtr 0) }) := by
  intro n
  induction n with
  | zero =>
    intro fuel m _ hge hlt
    obtain ⟨f, rfl⟩ : ∃ f, fuel = f + 1 := ⟨fuel - 1, by omega⟩
    have h0 : ¬ ((E (Call.XTmrCtr_GetValue Inst.UserTimerPtr 0) m.world).1 % U32
        < (MicroSeconds * (Inst.Config.SAxiClkHz / 1000000)) % U32) :=
      Nat.not_lt.mpr hge
    simp only [Dptx_CustomWaitUs_loop, extcall, h0, if_false]
    rfl
  | succ n ih =>
    intro fuel m hbelow hge hlt
    obtain ⟨f, rfl⟩ : ∃ f, fuel = f + 1 := ⟨fuel - 1, by omega⟩
    have h0 : (E (Call.XTmrCtr_GetValue Inst.UserTimerPtr 0) m.world).1 % U32
        < (MicroSeconds * (Inst.Config.SAxiClkHz / 1000000)) % U32 :=
      hbelow 0 (Nat.succ_pos n)
    simp only [Dptx_CustomWaitUs_loop, extcall, h0, if_true]
    rw [ih f _ (fun j hj => hbelow (j + 1) (Nat.succ_lt_succ hj)) hge (by omega)]
    simp only [readValue_succ, List.append_assoc, List.singleton_append,
      ← List.replicate_succ]
    rfl

/-- Dptx_CustomWaitUs has not returned after fuel iterations when the first
fuel values of the timer are all below the threshold. -/
theorem wait_none_of_below {W : Type} (E : Env W) (fuel : Nat) (Inst : XDptx)
    (MicroSeconds : Nat) (m : Machine W)
    (h : ∀ j, j < fuel → timerSeq E Inst m.world j < threshold Inst MicroSeconds) :
    Dptx_CustomWaitUs E fuel Inst MicroSeconds m = none := by
  unfold Dptx_CustomWaitUs
  simp only []
  rw [loop_none_of_below E Inst MicroSeconds fuel
    (extcall E (Call.XTmrCtr_Start Inst.UserTimerPtr 0) m).2 h]

/-- Dptx_CustomWaitUs returns after the first read that reaches the threshold:
the complete result. -/
theorem wait_some_of_first {W : Type} (E : Env W) (fuel : Nat) (Inst : XDptx)
    (MicroSeconds : Nat) (m : Machine W) (n : Nat)
    (hbelow : ∀ j, j < n → timerSeq E Inst m.world j < threshold Inst MicroSeconds)
    (hge : threshold Inst MicroSeconds ≤ timerSeq E Inst m.world n) (hlt : n < fuel) :
    Dptx_CustomWaitUs E fuel Inst MicroSeconds m =
      some { TimerVal := timerSeq E Inst m.world n, Inst := Inst,
             machine :=
               { world := (E (Call.XTmrCtr_Stop Inst.UserTimerPtr 0)
                   (worldAfterReads E Inst.UserTimerPtr (n + 1)
                     (worldAfterStart E Inst m.world))).2,
                 trace := m.trace ++ waitCalls Inst n } } := by
  unfold Dptx_CustomWaitUs
  simp only []
  rw [loop_some_of_first E Inst MicroSeconds n fuel
    (extcall E (Call.XTmrCtr_Start Inst.UserTimerPtr 0) m).2 hbelow hge hlt]
  simp [extcall, waitCalls, timerSeq, worldAfterStart]

/-- A sequence that reaches the threshold has a first read that does. -/
theorem exists_first_read (f : Nat → Nat) (T : Nat) (h : ∃ k, T ≤ f k) :
    ∃ n, (∀ j, j < n → f j < T) ∧ T ≤ f n :=
  ⟨Nat.find h, fun _ hj => Nat.not_le.mp (Nat.find_min h hj), Nat.find_spec h⟩

/-- When Dptx_CustomWaitUs returns, it has stopped at the first read that
reaches the threshold, within the bound. -/
theorem wait_some_inv {W : Type} (E : Env W) (fuel : Nat) (Inst : XDptx)
    (MicroSeconds : Nat) (m : Machine W) (r : WaitResult W)
    (h : Dptx_CustomWaitUs E fuel Inst MicroSeconds m = some r) :
    ∃ n, n < fuel ∧
      (∀ j, j < n → timerSeq E Inst m.world j < threshold Inst MicroSeconds) ∧
      threshold Inst MicroSeconds ≤ timerSeq E Inst m.world n ∧
      r = { TimerVal := timerSeq E Inst m.world n, Inst := Inst,
            machine :=
              { world := (E (Call.XTmrCtr_Stop Inst.UserTimerPtr 0)
                  (worldAfterReads E Inst.UserTimerPtr (n + 1)
                    (worldAfterStart E Inst m.world))).2,
                trace := m.trace ++ waitCalls Inst n } } := by
  by_cases hex : ∃ k, threshold Inst MicroSeconds ≤ timerSeq E Inst m.world k
  · obtain ⟨n, hbelow, hge⟩ := exists_first_read _ _ hex
    by_cases hn : n < fuel
    · refine ⟨n, hn, hbelow, hge, ?_⟩
      rw [wait_some_of_first E fuel Inst MicroSeconds m n hbelow hge hn] at h
      exact (Option.some.inj h).symm
    · rw [wait_none_of_below E fuel Inst MicroSeconds m
        (fun j hj => hbelow j (by omega))] at h
      exact absurd h (by simp)
  · rw [wait_none_of_below E fuel Inst MicroSeconds m
      (fun j _ => Nat.not_le.mp (fun hle => hex ⟨j, hle⟩))] at h
    exact absurd h (by simp)

/-- When Dptx_CustomWaitUs returns, the last value read is at or above the
threshold. -/
theorem wait_timerVal_ge {W : Type} (E : Env W) (fuel : Nat) (Inst : XDptx)
    (MicroSeconds : Nat) (m : Machine W) (r : WaitResult W)
    (h : Dptx_CustomWaitUs E fuel Inst MicroSeconds m = some r) :
    threshold Inst MicroSeconds ≤ r.TimerVal := by
  obtain ⟨n, _, _, hge, hr⟩ := wait_some_inv E fuel Inst MicroSeconds m r h
  rw [hr]
  exact hge

/-! ## Properties of Dptx_TimerExample and main -/

/-- C1: Dptx_TimerExample returns XST_SUCCESS exactly when Dptx_SetupExample
returned XST_SUCCESS and Dptx_Run, called afterwards, returned XST_SUCCESS; in
every other case it returns XST_FAILURE; its result is always one of these two
codes, which differ. -/
theorem Dptx_TimerExample_success_iff {W : Type} (K : Platform) (E : Env W)
    (InstancePtr DeviceId TimerCounterPtr UserSleepFunc : Nat) (m : Machine W) :
    ((Dptx_TimerExample K E InstancePtr DeviceId TimerCounterPtr UserSleepFunc m).1
        = XST_SUCCESS ↔
      setupStatus E InstancePtr DeviceId TimerCounterPtr UserSleepFunc m.world
          = XST_SUCCESS ∧
      runStatus K E InstancePtr DeviceId TimerCounterPtr UserSleepFunc m.world
          = XST_SUCCESS) ∧
    (¬ (setupStatus E InstancePtr DeviceId TimerCounterPtr UserSleepFunc m.world
          = XST_SUCCESS ∧
        runStatus K E InstancePtr DeviceId TimerCounterPtr UserSleepFunc m.world
          = XST_SUCCESS) →
      (Dptx_TimerExample K E InstancePtr DeviceId TimerCounterPtr UserSleepFunc m).1
        = XST_FAILURE) ∧
    ((Dptx_TimerExample K E InstancePtr DeviceId TimerCounterPtr UserSleepFunc m).1
        = XST_SUCCESS ∨
      (Dptx_TimerExample K E InstancePtr DeviceId TimerCounterPtr UserSleepFunc m).1
        = XST_FAILURE) ∧
    XST_SUCCESS ≠ XST_FAILURE := by
  have hne : XST_FAILURE ≠ XST_SUCCESS := by decide
  rw [Dptx_TimerExample_eq]
  by_cases h1 : setupStatus E InstancePtr DeviceId TimerCounterPtr UserSleepFunc m.world
      = XST_SUCCESS
  · by_cases h2 : runStatus K E InstancePtr DeviceId TimerCounterPtr UserSleepFunc m.world
        = XST_SUCCESS
    · simp [h1, h2, hne.symm]
    · simp [h1, h2, hne, hne.symm]
  · simp [h1, hne, hne.symm]

/-- C4, as stated, fails: when Dptx_SetupExample returns the status 2 the
result is 1, not 2; and when setup succeeds and Dptx_Run returns 2 the result
is again 1, not 2. -/
theorem Dptx_TimerExample_status_not_unchanged :
    ((2 : Nat) ≠ XST_SUCCESS ∧
      setupStatus (statusEnv 2 0) 4096 0 8192 12288 initMachine.world = 2 ∧
      (Dptx_TimerExample demoPlatform (statusEnv 2 0) 4096 0 8192 12288 initMachine).1
        ≠ 2) ∧
    (setupStatus (statusEnv 0 2) 4096 0 8192 12288 initMachine.world = XST_SUCCESS ∧
      runStatus demoPlatform (statusEnv 0 2) 4096 0 8192 12288 initMachine.world = 2 ∧
      (Dptx_TimerExample demoPlatform (statusEnv 0 2) 4096 0 8192 12288 initMachine).1
        ≠ 2) := by
  decide

/-- C4, amended: the status of the two delegated calls is reduced to the binary
code. A setup status other than XST_SUCCESS gives XST_FAILURE; after a
successful setup, a run status of XST_SUCCESS gives XST_SUCCESS and any other
run status gives XST_FAILURE. So a status that is itself XST_SUCCESS or
XST_FAILURE is passed on unchanged. -/
theorem Dptx_TimerExample_status_binary {W : Type} (K : Platform) (E : Env W)
    (InstancePtr DeviceId TimerCounterPtr UserSleepFunc : Nat) (m : Machine W) :
    (setupStatus E InstancePtr DeviceId TimerCounterPtr UserSleepFunc m.world
        ≠ XST_SUCCESS →
      (Dptx_TimerExample K E InstancePtr DeviceId TimerCounterPtr UserSleepFunc m).1
        = XST_FAILURE) ∧
    (setupStatus E InstancePtr DeviceId TimerCounterPtr UserSleepFunc m.world
        = XST_SUCCESS →
      (Dptx_TimerExample K E InstancePtr DeviceId TimerCounterPtr UserSleepFunc m).1
        = if runStatus K E InstancePtr DeviceId TimerCounterPtr UserSleepFunc m.world
            = XST_SUCCESS then XST_SUCCESS else XST_FAILURE) ∧
    (setupStatus E InstancePtr DeviceId TimerCounterPtr UserSleepFunc m.world
        = XST_FAILURE →
      (Dptx_TimerExample K E InstancePtr DeviceId TimerCounterPtr UserSleepFunc m).1
        = setupStatus E InstancePtr DeviceId TimerCounterPtr UserSleepFunc m.world) ∧
    (setupStatus E InstancePtr DeviceId TimerCounterPtr UserSleepFunc m.world
        = XST_SUCCESS →
      (runStatus K E InstancePtr DeviceId TimerCounterPtr UserSleepFunc m.world
          = XST_SUCCESS ∨
        runStatus K E InstancePtr DeviceId TimerCounterPtr UserSleepFunc m.world
          = XST_FAILURE) →
      (Dptx_TimerExample K E InstancePtr DeviceId TimerCounterPtr UserSleepFunc m).1
        = runStatus K E InstancePtr DeviceId TimerCounterPtr UserSleepFunc m.world) := by
  have hne : XST_FAILURE ≠ XST_SUCCESS := by decide
  rw [Dptx_TimerExample_eq]
  refine ⟨?_, ?_, ?_, ?_⟩
  · intro h
    simp [h]
  · intro h
    by_cases h2 : runStatus K E InstancePtr DeviceId TimerCounterPtr UserSleepFunc m.world
        = XST_SUCCESS <;> simp [h, h2]
  · intro h
    simp [h, hne]
  · intro h h2
    rcases h2 with h2 | h2 <;> simp [h, h2, hne]

/-- Witness for the amended C4: setup fails with XST_FAILURE, the result is
XST_FAILURE; setup and run succeed, the result is XST_SUCCESS. -/
theorem Dptx_TimerExample_status_binary_witness :
    (Dptx_TimerExample demoPlatform (statusEnv 1 0) 4096 0 8192 12288 initMachine).1
        = XST_FAILURE ∧
    (Dptx_TimerExample demoPlatform (statusEnv 0 0) 4096 0 8192 12288 initMachine).1
        = runStatus demoPlatform (statusEnv 0 0) 4096 0 8192 12288 initMachine.world :=
  ⟨(Dptx_TimerExample_status_binary demoPlatform (statusEnv 1 0) 4096 0 8192 12288
      initMachine).1 (by decide),
   (Dptx_TimerExample_status_binary demoPlatform (statusEnv 0 0) 4096 0 8192 12288
      initMachine).2.2.2 (by decide) (by decide)⟩

/-- C6: main returns XST_SUCCESS exactly when Dptx_TimerExample, invoked with
the address of DptxInstance, DPTX_DEVICE_ID (as a u16), the address of
TimerCounterInst and the address of Dptx_CustomWaitUs, returns XST_SUCCESS, and
XST_FAILURE otherwise; the state main leaves is the one this single invocation
leaves, so the platform hook, the registration of Dptx_CustomWaitUs with
TimerCounterInst, and the setup of DptxInstance each occur exactly once. -/
theorem main_status {W : Type} (K : Platform) (E : Env W) (m : Machine W) :
    ((main K E m).1 = (XST_SUCCESS : Int) ↔
      (Dptx_TimerExample K E K.DptxInstance (K.DPTX_DEVICE_ID % 65536)
        K.TimerCounterInst K.Dptx_CustomWaitUs m).1 = XST_SUCCESS) ∧
    ((Dptx_TimerExample K E K.DptxInstance (K.DPTX_DEVICE_ID % 65536)
        K.TimerCounterInst K.Dptx_CustomWaitUs m).1 ≠ XST_SUCCESS →
      (main K E m).1 = (XST_FAILURE : Int)) ∧
    (main K E m).2 =
      (Dptx_TimerExample K E K.DptxInstance (K.DPTX_DEVICE_ID % 65536)
        K.TimerCounterInst K.Dptx_CustomWaitUs m).2 ∧
    (∃ t, (main K E m).2.trace = m.trace ++ t ∧
      t.count Call.Dptx_PlatformInit = 1 ∧
      t.count (Call.XDptx_SetUserTimerHandler K.DptxInstance K.Dptx_CustomWaitUs
        K.TimerCounterInst) = 1 ∧
      t.count (Call.Dptx_SetupExample K.DptxInstance (K.DPTX_DEVICE_ID % 65536)) = 1) := by
  have hstate : (main K E m).2 =
      (Dptx_TimerExample K E K.DptxInstance (K.DPTX_DEVICE_ID % 65536)
        K.TimerCounterInst K.Dptx_CustomWaitUs m).2 := by
    unfold main
    simp only []
    split <;> rfl
  refine ⟨?_, ?_, hstate, ?_⟩
  · unfold main
    rcases Dptx_TimerExample_binary K E K.DptxInstance (K.DPTX_DEVICE_ID % 65536)
        K.TimerCounterInst K.Dptx_CustomWaitUs m with h | h
    · simp [h, u32ToInt, XST_SUCCESS]
    · simp [h, u32ToInt, XST_SUCCESS, XST_FAILURE]
  · intro hne
    unfold main
    rcases Dptx_TimerExample_binary K E K.DptxInstance (K.DPTX_DEVICE_ID % 65536)
        K.TimerCounterInst K.Dptx_CustomWaitUs m with h | h
    · exact absurd h hne
    · simp [h, u32ToInt, XST_SUCCESS, XST_FAILURE]
  · rw [hstate, Dptx_TimerExample_eq]
    split
    · exact ⟨_, rfl, by simp [List.count_cons], by simp [List.count_cons],
        by simp [List.count_cons]⟩
    · exact ⟨_, rfl, by simp [List.count_cons], by simp [List.count_cons],
        by simp [List.count_cons]⟩

/-- Witness for C6: main on an environment in which setup and run succeed,
and on one in which setup fails. -/
theorem main_status_witness :
    (main demoPlatform (statusEnv 0 0) initMachine).1 = (XST_SUCCESS : Int) ∧
    (main demoPlatform (statusEnv 5 0) initMachine).1 = (XST_FAILURE : Int) :=
  ⟨(main_status demoPlatform (statusEnv 0 0) initMachine).1.2 (by decide),
   (main_status demoPlatform (statusEnv 5 0) initMachine).2.1 (by decide)⟩

/-- C7: link training starts only after a successful setup, and nothing is
retried. When Dptx_SetupExample returns a status other than XST_SUCCESS, the
calls Dptx_TimerExample makes contain no XDptx_EnableTrainAdaptive, no
XDptx_SetHasRedriverInPath and no Dptx_Run; in every execution
Dptx_SetupExample and Dptx_Run are each called at most once. -/
theorem Dptx_TimerExample_no_training_no_retry {W : Type} (K : Platform) (E : Env W)
    (InstancePtr DeviceId TimerCounterPtr UserSleepFunc : Nat) (m : Machine W) :
    ∃ t : List Call,
      (Dptx_TimerExample K E InstancePtr DeviceId TimerCounterPtr UserSleepFunc m).2.trace
        = m.trace ++ t ∧
      (setupStatus E InstancePtr DeviceId TimerCounterPtr UserSleepFunc m.world
          ≠ XST_SUCCESS → ∀ c ∈ t, c.isTraining = false) ∧
      t.countP Call.isSetup ≤ 1 ∧
      t.countP Call.isRun ≤ 1 := by
  rw [Dptx_TimerExample_eq]
  by_cases h : setupStatus E InstancePtr DeviceId TimerCounterPtr UserSleepFunc m.world
      = XST_SUCCESS
  · refine ⟨_, by simp only [h, ne_eq, not_true_eq_false, if_false]; rfl, ?_, ?_, ?_⟩
    · intro hne
      exact absurd h hne
    · simp [List.countP_cons, Call.isSetup]
    · simp [List.countP_cons, Call.isRun]
  · refine ⟨_, by simp only [h, ne_eq, not_false_eq_true, if_true]; rfl, ?_, ?_, ?_⟩
    · intro _ c hc
      simp only [List.mem_cons, List.mem_singleton, List.not_mem_nil, or_false] at hc
      rcases hc with hc | hc | hc <;> subst hc <;> rfl
    · simp [List.countP_cons, Call.isSetup]
    · simp [List.countP_cons, Call.isRun]

/-- Witness for C7: with a setup status of 7 the trace holds the three calls up
to the setup and no training call. -/
theorem Dptx_TimerExample_no_training_no_retry_witness :
    (Dptx_TimerExample demoPlatform (statusEnv 7 0) 4096 0 8192 12288 initMachine).2.trace
        = [Call.Dptx_PlatformInit, Call.XDptx_SetUserTimerHandler 4096 12288 8192,
           Call.Dptx_SetupExample 4096 0] ∧
    ∃ t : List Call,
      (Dptx_TimerExample demoPlatform (statusEnv 7 0) 4096 0 8192 12288 initMachine).2.trace
        = initMachine.trace ++ t ∧
      (setupStatus (statusEnv 7 0) 4096 0 8192 12288 initMachine.world
          ≠ XST_SUCCESS → ∀ c ∈ t, c.isTraining = false) ∧
      t.countP Call.isSetup ≤ 1 ∧
      t.countP Call.isRun ≤ 1 :=
  ⟨by decide,
   Dptx_TimerExample_no_training_no_retry demoPlatform (statusEnv 7 0) 4096 0 8192 12288
     initMachine⟩

/-- C8: the calls Dptx_TimerExample makes are fixed. First Dptx_PlatformInit,
then XDptx_SetUserTimerHandler with the instance, the handler and the timer of
the caller, then Dptx_SetupExample with the instance and the device id; when
setup succeeds these are followed by XDptx_EnableTrainAdaptive with
TRAIN_ADAPTIVE, XDptx_SetHasRedriverInPath with TRAIN_HAS_REDRIVER and
Dptx_Run, in this order, and by nothing when it fails. The handler is thus
registered before setup and before run. -/
theorem Dptx_TimerExample_trace {W : Type} (K : Platform) (E : Env W)
    (InstancePtr DeviceId TimerCounterPtr UserSleepFunc : Nat) (m : Machine W) :
    (Dptx_TimerExample K E InstancePtr DeviceId TimerCounterPtr UserSleepFunc m).2.trace
      = m.trace ++
        ([Call.Dptx_PlatformInit,
          Call.XDptx_SetUserTimerHandler InstancePtr UserSleepFunc TimerCounterPtr,
          Call.Dptx_SetupExample InstancePtr DeviceId] ++
         if setupStatus E InstancePtr DeviceId TimerCounterPtr UserSleepFunc m.world
             = XST_SUCCESS then
           [Call.XDptx_EnableTrainAdaptive InstancePtr K.TRAIN_ADAPTIVE,
            Call.XDptx_SetHasRedriverInPath InstancePtr K.TRAIN_HAS_REDRIVER,
            Call.Dptx_Run InstancePtr]
         else []) := by
  rw [Dptx_TimerExample_eq]
  by_cases h : setupStatus E InstancePtr DeviceId TimerCounterPtr UserSleepFunc m.world
      = XST_SUCCESS
  · simp [h]
  · simp [h]

/-! ## Properties of Dptx_CustomWaitUs -/

/-- C2: with the timer as the sequence of u32 values successive reads return,
and the threshold MicroSeconds * (SAxiClkHz / 1000000) in u32 arithmetic,
Dptx_CustomWaitUs returns exactly at the first read that is at or above the
threshold: every earlier read is below it, the last read reaches it, the loop
has not ended before this read, and the calls made are the start, the reads up
to this one, and the stop, with no read after it. -/
theorem Dptx_CustomWaitUs_returns_at_first_read {W : Type} (E : Env W) (Inst : XDptx)
    (MicroSeconds : Nat) (m : Machine W)
    (h : ∃ k, threshold Inst MicroSeconds ≤ timerSeq E Inst m.world k) :
    threshold Inst MicroSeconds
      = (MicroSeconds * (Inst.Config.SAxiClkHz / 1000000)) % 4294967296 ∧
    ∃ n,
      (∀ j, j < n → timerSeq E Inst m.world j < threshold Inst MicroSeconds) ∧
      threshold Inst MicroSeconds ≤ timerSeq E Inst m.world n ∧
      (∀ fuel, fuel ≤ n → Dptx_CustomWaitUs E fuel Inst MicroSeconds m = none) ∧
      (∀ fuel, n < fuel →
        ∃ r, Dptx_CustomWaitUs E fuel Inst MicroSeconds m = some r ∧
          r.TimerVal = timerSeq E Inst m.world n ∧
          r.machine.trace = m.trace ++
            (Call.XTmrCtr_Start Inst.UserTimerPtr 0 ::
              (List.replicate (n + 1) (Call.XTmrCtr_GetValue Inst.UserTimerPtr 0) ++
                [Call.XTmrCtr_Stop Inst.UserTimerPtr 0]))) := by
  refine ⟨rfl, ?_⟩
  obtain ⟨n, hbelow, hge⟩ := exists_first_read _ _ h
  refine ⟨n, hbelow, hge, ?_, ?_⟩
  · intro fuel hfuel
    exact wait_none_of_below E fuel Inst MicroSeconds m (fun j hj => hbelow j (by omega))
  · intro fuel hfuel
    exact ⟨_, wait_some_of_first E fuel Inst MicroSeconds m n hbelow hge hfuel, rfl, rfl⟩

/-- Witness for C2: a counter that ticks once per read, a clock of 3 MHz and a
wait of 2 microseconds; the threshold 6 is reached at read number 6. -/
theorem Dptx_CustomWaitUs_returns_at_first_read_witness :
    (∃ k, threshold (demoInst 3000000) 2
        ≤ timerSeq tickEnv (demoInst 3000000) demoMachine.world k) ∧
    ∃ n,
      (∀ j, j < n →
        timerSeq tickEnv (demoInst 3000000) demoMachine.world j
          < threshold (demoInst 3000000) 2) ∧
      threshold (demoInst 3000000) 2
        ≤ timerSeq tickEnv (demoInst 3000000) demoMachine.world n ∧
      (∀ fuel, fuel ≤ n →
        Dptx_CustomWaitUs tickEnv fuel (demoInst 3000000) 2 demoMachine = none) ∧
      (∀ fuel, n < fuel →
        ∃ r, Dptx_CustomWaitUs tickEnv fuel (demoInst 3000000) 2 demoMachine = some r ∧
          r.TimerVal = timerSeq tickEnv (demoInst 3000000) demoMachine.world n ∧
          r.machine.trace = demoMachine.trace ++
            (Call.XTmrCtr_Start (demoInst 3000000).UserTimerPtr 0 ::
              (List.replicate (n + 1)
                  (Call.XTmrCtr_GetValue (demoInst 3000000).UserTimerPtr 0) ++
                [Call.XTmrCtr_Stop (demoInst 3000000).UserTimerPtr 0]))) :=
  ⟨⟨6, by decide⟩,
   (Dptx_CustomWaitUs_returns_at_first_read tickEnv (demoInst 3000000) 2 demoMachine
     ⟨6, by decide⟩).2⟩

/-- C3, as stated, fails. With a clock of 1999999 Hz and a wait of 1
microsecond the function returns with TimerVal = 1, and 1 * 1000000 is below
1 * 1999999 (the division truncates). With a clock of 100 MHz and a wait of
42949673 microseconds it returns with TimerVal = 4, and 4 * 1000000 is below
42949673 * 100000000 (the u32 product wraps). -/
theorem Dptx_CustomWaitUs_elapsed_fails :
    (∃ r, Dptx_CustomWaitUs tickEnv 2 (demoInst 1999999) 1 demoMachine = some r ∧
      r.TimerVal = 1 ∧
      ¬ (r.TimerVal * 1000000 ≥ 1 * (demoInst 1999999).Config.SAxiClkHz)) ∧
    (∃ r, Dptx_CustomWaitUs tickEnv 5 (demoInst 100000000) 42949673 demoMachine = some r ∧
      r.TimerVal = 4 ∧
      ¬ (r.TimerVal * 1000000 ≥ 42949673 * (demoInst 100000000).Config.SAxiClkHz)) :=
  ⟨⟨_, rfl, by decide, by decide⟩, ⟨_, rfl, by decide, by decide⟩⟩

/-- C3, amended: when SAxiClkHz is a whole number of MHz and the product
MicroSeconds * (SAxiClkHz / 1000000) fits in 32 bits, then, when
Dptx_CustomWaitUs returns, the last counter value read satisfies
TimerVal * 1000000 >= MicroSeconds * SAxiClkHz over the unbounded integers. -/
theorem Dptx_CustomWaitUs_elapsed_whole_MHz {W : Type} (E : Env W) (fuel : Nat)
    (Inst : XDptx) (MicroSeconds : Nat) (m : Machine W) (r : WaitResult W)
    (hdvd : 1000000 ∣ Inst.Config.SAxiClkHz)
    (hfit : MicroSeconds * (Inst.Config.SAxiClkHz / 1000000) < 4294967296)
    (hret : Dptx_CustomWaitUs E fuel Inst MicroSeconds m = some r) :
    r.TimerVal * 1000000 ≥ MicroSeconds * Inst.Config.SAxiClkHz := by
  have hle := wait_timerVal_ge E fuel Inst MicroSeconds m r hret
  have hT : threshold Inst MicroSeconds
      = MicroSeconds * (Inst.Config.SAxiClkHz / 1000000) := by
    unfold threshold U32
    exact Nat.mod_eq_of_lt hfit
  rw [hT] at hle
  calc MicroSeconds * Inst.Config.SAxiClkHz
      = MicroSeconds * (Inst.Config.SAxiClkHz / 1000000 * 1000000) := by
        rw [Nat.div_mul_cancel hdvd]
    _ = MicroSeconds * (Inst.Config.SAxiClkHz / 1000000) * 1000000 := by
        rw [Nat.mul_assoc]
    _ ≤ r.TimerVal * 1000000 := Nat.mul_le_mul_right 1000000 hle

/-- Witness for the amended C3: a clock of 3 MHz, a wait of 2 microseconds, the
function returns with TimerVal = 6. -/
theorem Dptx_CustomWaitUs_elapsed_whole_MHz_witness :
    1000000 ∣ (demoInst 3000000).Config.SAxiClkHz ∧
    2 * ((demoInst 3000000).Config.SAxiClkHz / 1000000) < 4294967296 ∧
    Dptx_CustomWaitUs tickEnv 9 (demoInst 3000000) 2 demoMachine
      = some { TimerVal := 6, Inst := demoInst 3000000,
               machine := { world := 7, trace := waitCalls (demoInst 3000000) 6 } } ∧
    6 * 1000000 ≥ 2 * (demoInst 3000000).Config.SAxiClkHz :=
  ⟨by decide, by decide, by decide,
   Dptx_CustomWaitUs_elapsed_whole_MHz tickEnv 9 (demoInst 3000000) 2 demoMachine
     { TimerVal := 6, Inst := demoInst 3000000,
       machine := { world := 7, trace := waitCalls (demoInst 3000000) 6 } }
     (by decide) (by decide) (by decide)⟩

/-- C5: Dptx_CustomWaitUs has no error path and returns whenever the counter
reaches the threshold. If some value of the timer sequence is at or above the
threshold, the loop ends after finitely many reads (n + 1 of them), the
function returns after a last call of XTmrCtr_Stop, and a larger bound on the
iterations gives the same result. The function fails to return, whatever the
bound, exactly when no read ever reaches the threshold. -/
theorem Dptx_CustomWaitUs_terminates_iff {W : Type} (E : Env W) (Inst : XDptx)
    (MicroSeconds : Nat) (m : Machine W) :
    ((∃ k, threshold Inst MicroSeconds ≤ timerSeq E Inst m.world k) →
      ∃ n fuel r,
        Dptx_CustomWaitUs E fuel Inst MicroSeconds m = some r ∧
        (∀ fuel2, fuel ≤ fuel2 → Dptx_CustomWaitUs E fuel2 Inst MicroSeconds m = some r) ∧
        r.machine.trace = m.trace ++ waitCalls Inst n ∧
        (waitCalls Inst n).count (Call.XTmrCtr_GetValue Inst.UserTimerPtr 0) = n + 1 ∧
        r.machine.trace.getLast? = some (Call.XTmrCtr_Stop Inst.UserTimerPtr 0)) ∧
    ((∀ fuel, Dptx_CustomWaitUs E fuel Inst MicroSeconds m = none) ↔
      ∀ k, timerSeq E Inst m.world k < threshold Inst MicroSeconds) := by
  constructor
  · intro h
    obtain ⟨n, hbelow, hge⟩ := exists_first_read _ _ h
    refine ⟨n, n + 1, _,
      wait_some_of_first E (n + 1) Inst MicroSeconds m n hbelow hge (Nat.lt_succ_self n),
      ?_, rfl, ?_, ?_⟩
    · intro fuel2 hfuel2
      exact wait_some_of_first E fuel2 Inst MicroSeconds m n hbelow hge (by omega)
    · simp [waitCalls, List.count_cons, List.count_replicate]
    · have hsplit : m.trace ++ waitCalls Inst n =
          (m.trace ++ Call.XTmrCtr_Start Inst.UserTimerPtr 0 ::
            List.replicate (n + 1) (Call.XTmrCtr_GetValue Inst.UserTimerPtr 0)) ++
          [Call.XTmrCtr_Stop Inst.UserTimerPtr 0] := by
        simp [waitCalls]
      show (m.trace ++ waitCalls Inst n).getLast? = _
      rw [hsplit, List.getLast?_concat]
  · constructor
    · intro hnone k
      by_contra hk
      obtain ⟨n, hbelow, hge⟩ :=
        exists_first_read (timerSeq E Inst m.world) (threshold Inst MicroSeconds)
          ⟨k, Nat.not_lt.mp hk⟩
      have hsome := wait_some_of_first E (n + 1) Inst MicroSeconds m n hbelow hge
        (Nat.lt_succ_self n)
      rw [hnone (n + 1)] at hsome
      exact absurd hsome (by simp)
    · intro hall fuel
      exact wait_none_of_below E fuel Inst MicroSeconds m (fun j _ => hall j)

/-- Witness for C5: the ticking counter reaches the threshold 6 and the
function returns; a timer stuck at 0 never does and the function does not
return. -/
theorem Dptx_CustomWaitUs_terminates_iff_witness :
    (∃ n fuel r,
      Dptx_CustomWaitUs tickEnv fuel (demoInst 3000000) 2 demoMachine = some r ∧
      (∀ fuel2, fuel ≤ fuel2 →
        Dptx_CustomWaitUs tickEnv fuel2 (demoInst 3000000) 2 demoMachine = some r) ∧
      r.machine.trace = demoMachine.trace ++ waitCalls (demoInst 3000000) n ∧
      (waitCalls (demoInst 3000000) n).count
        (Call.XTmrCtr_GetValue (demoInst 3000000).UserTimerPtr 0) = n + 1 ∧
      r.machine.trace.getLast?
        = some (Call.XTmrCtr_Stop (demoInst 3000000).UserTimerPtr 0)) ∧
    (∀ fuel, Dptx_CustomWaitUs (constEnv 0) fuel (demoInst 3000000) 2 initMachine = none) :=
  ⟨(Dptx_CustomWaitUs_terminates_iff tickEnv (demoInst 3000000) 2 demoMachine).1
     ⟨6, by decide⟩,
   (Dptx_CustomWaitUs_terminates_iff (constEnv 0) (demoInst 3000000) 2 initMachine).2.2
     (fun k => by
       have h6 : threshold (demoInst 3000000) 2 = 6 := by decide
       rw [h6]
       simp [timerSeq, readValue, constEnv])⟩

/-- C9: when MicroSeconds is 0, or the clock is below 1 MHz so that the
truncating division gives 0, the threshold is 0 and Dptx_CustomWaitUs makes
exactly one read and returns, whatever value the timer holds: the calls are
the start, one read and the stop. -/
theorem Dptx_CustomWaitUs_zero_threshold {W : Type} (E : Env W) (Inst : XDptx)
    (MicroSeconds : Nat) (m : Machine W)
    (h : MicroSeconds = 0 ∨ Inst.Config.SAxiClkHz < 1000000) :
    threshold Inst MicroSeconds = 0 ∧
    ∀ fuel, ∃ r,
      Dptx_CustomWaitUs E (fuel + 1) Inst MicroSeconds m = some r ∧
      r.TimerVal = timerSeq E Inst m.world 0 ∧
      r.machine.trace = m.trace ++
        [Call.XTmrCtr_Start Inst.UserTimerPtr 0,
         Call.XTmrCtr_GetValue Inst.UserTimerPtr 0,
         Call.XTmrCtr_Stop Inst.UserTimerPtr 0] := by
  have hprod : MicroSeconds * (Inst.Config.SAxiClkHz / 1000000) = 0 := by
    rcases h with h | h
    · rw [h, Nat.zero_mul]
    · rw [Nat.div_eq_of_lt h, Nat.mul_zero]
  have hT : threshold Inst MicroSeconds = 0 := by
    unfold threshold
    rw [hprod]
    rfl
  refine ⟨hT, ?_⟩
  intro fuel
  refine ⟨_, wait_some_of_first E (fuel + 1) Inst MicroSeconds m 0
    (fun j hj => absurd hj (Nat.not_lt_zero j)) (by rw [hT]; exact Nat.zero_le _)
    (Nat.succ_pos fuel), rfl, rfl⟩

/-- Witness for C9: a clock of 999999 Hz and a wait of 1000 microseconds, on a
timer that holds 0: one read, no delay. -/
theorem Dptx_CustomWaitUs_zero_threshold_witness :
    ((1000 : Nat) = 0 ∨ (demoInst 999999).Config.SAxiClkHz < 1000000) ∧
    threshold (demoInst 999999) 1000 = 0 ∧
    ∀ fuel, ∃ r,
      Dptx_CustomWaitUs (constEnv 0) (fuel + 1) (demoInst 999999) 1000 initMachine
        = some r ∧
      r.TimerVal = timerSeq (constEnv 0) (demoInst 999999) initMachine.world 0 ∧
      r.machine.trace = initMachine.trace ++
        [Call.XTmrCtr_Start (demoInst 999999).UserTimerPtr 0,
         Call.XTmrCtr_GetValue (demoInst 999999).UserTimerPtr 0,
         Call.XTmrCtr_Stop (demoInst 999999).UserTimerPtr 0] :=
  ⟨by decide,
   Dptx_CustomWaitUs_zero_threshold (constEnv 0) (demoInst 999999) 1000 initMachine
     (by decide)⟩

/-- C10: in every execution of Dptx_CustomWaitUs that returns, the calls made
are one XTmrCtr_Start, then one or more XTmrCtr_GetValue, then one
XTmrCtr_Stop, each on counter 0 of the UserTimerPtr of the instance, so every
read lies between the start and the stop; and the fields UserTimerPtr and
Config.SAxiClkHz of the instance are unchanged. -/
theorem Dptx_CustomWaitUs_trace_frame {W : Type} (E : Env W) (fuel : Nat) (Inst : XDptx)
    (MicroSeconds : Nat) (m : Machine W) (r : WaitResult W)
    (hret : Dptx_CustomWaitUs E fuel Inst MicroSeconds m = some r) :
    (∃ n, 1 ≤ n ∧
      r.machine.trace = m.trace ++
        ([Call.XTmrCtr_Start Inst.UserTimerPtr 0] ++
          List.replicate n (Call.XTmrCtr_GetValue Inst.UserTimerPtr 0) ++
          [Call.XTmrCtr_Stop Inst.UserTimerPtr 0])) ∧
    r.Inst.UserTimerPtr = Inst.UserTimerPtr ∧
    r.Inst.Config.SAxiClkHz = Inst.Config.SAxiClkHz := by
  obtain ⟨n, _, _, _, hr⟩ := wait_some_inv E fuel Inst MicroSeconds m r hret
  subst hr
  refine ⟨⟨n + 1, Nat.succ_pos n, ?_⟩, rfl, rfl⟩
  simp [waitCalls]

/-- Witness for C10: the execution on the ticking counter with a clock of
3 MHz and a wait of 2 microseconds. -/
theorem Dptx_CustomWaitUs_trace_frame_witness :
    Dptx_CustomWaitUs tickEnv 9 (demoInst 3000000) 2 demoMachine
      = some { TimerVal := 6, Inst := demoInst 3000000,
               machine := { world := 7, trace := waitCalls (demoInst 3000000) 6 } } ∧
    (∃ n, 1 ≤ n ∧
      waitCalls (demoInst 3000000) 6 = demoMachine.trace ++
        ([Call.XTmrCtr_Start (demoInst 3000000).UserTimerPtr 0] ++
          List.replicate n (Call.XTmrCtr_GetValue (demoInst 3000000).UserTimerPtr 0) ++
          [Call.XTmrCtr_Stop (demoInst 3000000).UserTimerPtr 0])) :=
  ⟨by decide,
   (Dptx_CustomWaitUs_trace_frame tickEnv 9 (demoInst 3000000) 2 demoMachine
     { TimerVal := 6, Inst := demoInst 3000000,
       machine := { world := 7, trace := waitCalls (demoInst 3000000) 6 } }
     (by decide)).1⟩

end Dptx
